import Mathlib

/-!
Verification of go-chrome-framework: a shallow embedding of the browser
process manager (`chrome`), the session connector, and the tab layer
(`tab`), together with theorems settling the specification's claims.

Errors are modelled as strings (Go `error` values compared by message),
Go `nil`-able pointers as `Option`, and the external RPC collaborator
(protocol client, dial, HTTP version lookup) as explicit outcome
environments passed to each operation.
-/

namespace GoChrome

/-- Go `error` values, identified by their message. -/
abbrev Err := String

/-! ## Option model (opts.go) -/

/-- Embeds `LaunchOpts` from opts.go: binary path, optional fixed port,
extra arguments, headless flag.  Go's `nil` slice and the empty slice
behave identically under append, so `arguments` is a plain list. -/
structure LaunchOpts where
  path : String
  port : Option Int
  arguments : List String
  headless : Bool
deriving Repr, DecidableEq

/-- Embeds `NewLaunchOpts` from opts.go: zero value except `headless: true`. -/
def NewLaunchOpts : LaunchOpts :=
  { path := "", port := none, arguments := [], headless := true }

/-- Embeds `LaunchOpts.SetPort`. -/
def LaunchOpts.SetPort (l : LaunchOpts) (port : Int) : LaunchOpts :=
  { l with port := some port }

/-- Embeds `LaunchOpts.SetArguments` (append-only). -/
def LaunchOpts.SetArguments (l : LaunchOpts) (arguments : List String) : LaunchOpts :=
  { l with arguments := l.arguments ++ arguments }

/-- Embeds `LaunchOpts.SetHeadless`. -/
def LaunchOpts.SetHeadless (l : LaunchOpts) (headless : Bool) : LaunchOpts :=
  { l with headless := headless }

/-- Embeds `ScreenshotOpts` from opts.go.  `DeviceScaleFactor` is Go
`float64`; only exact comparison with `0` and assignment of `1.0` occur
in the code, so `Rat` is a faithful carrier for these operations. -/
structure ScreenshotOpts where
  Width : Int
  Height : Int
  DeviceScaleFactor : Rat
  Mobile : Bool
deriving Repr, DecidableEq

/-! ## Pointer-boxing helpers (converters) -/

/-- Embeds `IntValue`: value of the pointer, or 0 when nil. -/
def IntValue : Option Int → Int
  | some n => n
  | none => 0

/-! ## Launch argument construction (chrome.Launch) -/

/-- The port resolution at the top of `chrome.Launch`: default 9222 when
no port is specified, else the caller's port. -/
def resolvePort : Option Int → Int
  | none => 9222
  | some p => p

/-- The `--remote-debugging-port=<port>` flag as formatted by
`fmt.Sprintf("--remote-debugging-port=%v", IntValue(c.port))`. -/
def debugPortFlag (p : Int) : String :=
  "--remote-debugging-port=" ++ toString p

/-- The fixed default argument list of `chrome.Launch`, transcribed
verbatim from the source (note: no `--headless` here; it is appended
conditionally afterwards). -/
def defaultArguments (p : Int) : List String :=
  [ "--disable-background-networking"
  , "--disable-backgrounding-occluded-windows"
  , "--disable-background-timer-throttling"
  , "--disable-breakpad"
  , "--disable-client-side-phishing-detection"
  , "--disable-default-apps"
  , "--disable-dev-shm-usage"
  , "--disable-extensions"
  , "--disable-features=site-per-process,TranslateUI"
  , "--disable-gpu"
  , "--disable-hang-monitor"
  , "--disable-infobars"
  , "--disable-ipc-flooding-protection"
  , "--disable-popup-blocking"
  , "--disable-prompt-on-repost"
  , "--disable-renderer-backgrounding"
  , "--disable-sync"
  , "--disable-translate"
  , "--enable-features=NetworkService,NetworkServiceInProcess"
  , "--enable-automation"
  , "--force-color-profile=srgb"
  , "--hide-scrollbars"
  , "--ignore-certificate-errors"
  , "--metrics-recording-only"
  , "--mute-audio"
  , "--no-first-run"
  , "--no-sandbox"
  , "--password-store=basic"
  , debugPortFlag p
  , "--safebrowsing-disable-auto-update"
  , "--use-mock-keychain" ]

/-- The full argument list built by `chrome.Launch`: defaults, then the
caller's extra arguments (Go appends only when the slice is non-nil,
which coincides with appending the possibly-empty list), then
`--headless` exactly when `opts.headless` is true. -/
def launchArgs (opts : LaunchOpts) : List String :=
  let args := defaultArguments (resolvePort opts.port)
  let args := args ++ opts.arguments
  if opts.headless then args ++ ["--headless"] else args

/-- The HTTP endpoint `fmt.Sprintf("http://localhost:%v", IntValue(c.port))`
used by `chrome.connect` for the version lookup. -/
def versionURL (p : Int) : String :=
  "http://localhost:" ++ toString p

/-! ## Browser process state (chrome struct, Terminate) -/

/-- Outcome of `exec.Cmd.Process.Kill` for the modelled process. -/
structure GoProcess where
  killResult : Option Err
deriving Repr, DecidableEq

/-- Embeds `*exec.Cmd`: `process` is nil until `Start` succeeds. -/
structure GoCmd where
  process : Option GoProcess
deriving Repr, DecidableEq

/-- The `chrome` struct fields relevant to process control:
`command` is nil until `Launch` builds it. -/
structure ChromeState where
  command : Option GoCmd
  port : Option Int
deriving Repr, DecidableEq

/-- Embeds `NewChrome()`: the zero-valued facade, no command, no port. -/
def NewChrome : ChromeState :=
  { command := none, port := none }

/-- Outcome of running a Go method that may dereference a nil pointer. -/
inductive GoOutcome (α : Type) where
  | ok (a : α)
  | nilPointerPanic
deriving Repr, DecidableEq

/-- Embeds `chrome.Terminate`: it reads `c.command.Process`, which is a
nil-pointer dereference (runtime panic) when `c.command` is nil; with a
command but no started process it returns nil; otherwise it kills. -/
def Terminate (c : ChromeState) : GoOutcome (Option Err) :=
  match c.command with
  | none => .nilPointerPanic
  | some cmd =>
    match cmd.process with
    | none => .ok none
    | some p => .ok p.killResult

/-- The state of the facade right after `chrome.Launch` resolved the
port (`c.port = Int(9222)` or the caller's), before any connection. -/
def launchPortResolved (c : ChromeState) (opts : LaunchOpts) : ChromeState :=
  { c with port := some (resolvePort opts.port) }

/-- The version-lookup URL `chrome.connect` issues against the facade's
stored port. -/
def connectVersionURL (c : ChromeState) : String :=
  versionURL (IntValue c.port)

/-! ## Bounded retry (chrome.connect wraps the handshake in
`retry.NewRetrier(5, 100*time.Millisecond, time.Second)`) -/

/-- Modelled from the spec: the inter-attempt backoff schedule of the
external retry dependency (github.com/flowchartsman/retry, not part of
this repository) at the call-site parameters of `chrome.connect` —
exponential backoff starting at the initial delay of 100 ms, capped at
the maximum delay of 1 s.  `backoffDelay i` is the delay (in ms) slept
after the (i+1)-th failed attempt. -/
def backoffDelay (i : Nat) : Nat :=
  min (100 * 2 ^ i) 1000

/-- Modelled from the spec: the run loop of the external retry
dependency.  `outcome i` is the error of the (i+1)-th attempt of the
wrapped function, or `none` when that attempt succeeds.
`retryRun outcome remaining i` runs attempts `i, i+1, …` with
`remaining` attempts left in the budget: a success stops the loop with
`none`; exhausting the budget returns the last attempt's error. -/
def retryRun (outcome : Nat → Option Err) : Nat → Nat → Option Err
  | 0, _ => none
  | 1, i => outcome i
  | n + 2, i =>
    match outcome i with
    | none => none
    | some _ => retryRun outcome (n + 1) (i + 1)

/-- Number of attempts the retry loop actually executes. -/
def attemptsUsed (outcome : Nat → Option Err) : Nat → Nat → Nat
  | 0, _ => 0
  | 1, _ => 1
  | n + 2, i =>
    match outcome i with
    | none => 1
    | some _ => 1 + attemptsUsed outcome (n + 1) (i + 1)

/-! ## Handshake (chrome.connect) -/

/-- A live rpcc connection; `isOpen` records whether `Close` has been
called on it. -/
structure Conn where
  isOpen : Bool
deriving Repr, DecidableEq

/-- One target's description from `Target.GetTargets`. -/
structure TargetInfo where
  targetType : String
  targetID : String
deriving Repr, DecidableEq

/-- The environment of one handshake attempt inside `chrome.connect`:
the outcome of the devtool version lookup (yielding the websocket
debugger URL), of `rpcc.DialContext`, and of `Target.GetTargets`. -/
structure HandshakeEnv where
  version : Except Err String
  dial : Except Err Conn
  getTargets : Except Err (List TargetInfo)

/-- One attempt of the closure `chrome.connect` hands to the retrier:
version lookup, then dial, then target-list query; the first failing
step's error is the attempt's error, and an attempt with all three
steps succeeding returns nil. -/
def handshakeAttempt (env : HandshakeEnv) : Option Err :=
  match env.version with
  | .error e => some e
  | .ok _ =>
    match env.dial with
    | .error e => some e
    | .ok _ =>
      match env.getTargets with
      | .error e => some e
      | .ok _ => none

/-- The error result of `chrome.connect`'s retry loop over a run whose
(i+1)-th attempt sees environment `envs i`: the retrier is created with
a budget of 5 attempts. -/
def chromeConnectResult (envs : Nat → HandshakeEnv) : Option Err :=
  retryRun (fun i => handshakeAttempt (envs i)) 5 0

/-- How many handshake attempts `chrome.connect` executes in that run. -/
def chromeConnectAttempts (envs : Nat → HandshakeEnv) : Nat :=
  attemptsUsed (fun i => handshakeAttempt (envs i)) 5 0

/-! ## Tab layer (tab struct) -/

/-- A registered `ClientHook`, abstracted to its registration label and
the outcome it produces when run against the freshly built client. -/
abbrev Hook := String × Option Err

/-- Embeds the `tab` struct fields: target id, port, nil-able rpcc
connection, nil-able cdp client (holding the connection it wraps), and
the ordered hook list. -/
structure TabState where
  id : String
  port : Option Int
  conn : Option Conn
  client : Option Conn
  hooks : List Hook
deriving Repr, DecidableEq

/-- Runs hooks in registration order until the first failure, as the
loop in `tab.connect` does; returns the labels of the hooks that were
executed (in order) and the first error, if any. -/
def runHooks : List Hook → List String × Option Err
  | [] => ([], none)
  | (name, res) :: rest =>
    match res with
    | some e => ([name], some e)
    | none => (name :: (runHooks rest).1, (runHooks rest).2)

/-- Result of `tab.connect`: the tab's state afterwards, the returned
error (nil on success), and the labels of the hooks that ran. -/
structure ConnectOutcome where
  state : TabState
  result : Option Err
  hooksRun : List String
deriving Repr, DecidableEq

/-- Embeds `tab.connect` (part_002 lines 45–73).  `dial` is the outcome
of `rpcc.DialContext`.  On dial failure the multiple assignment
`t.conn, err = rpcc.DialContext(…)` stores nil into `t.conn` and the
error is returned.  On success the connection and the client are stored
first, then the hooks run in order; the first hook failure is returned
(with connection and client still stored). -/
def tabConnect (dial : Except Err Conn) (t : TabState) : ConnectOutcome :=
  match dial with
  | .error e => ⟨{ t with conn := none }, some e, []⟩
  | .ok c =>
    let t' := { t with conn := some c, client := some c }
    ⟨t', (runHooks t'.hooks).2, (runHooks t'.hooks).1⟩

/-- Embeds `tab.disconnect`: `t.conn.Close()` closes the underlying
connection but leaves the `conn` field itself set. -/
def tabDisconnect (t : TabState) : TabState :=
  { t with conn := t.conn.map fun c => { c with isOpen := false } }

/-- The error rpcc reports for calls issued over a closed connection. -/
def connClosingErr : Err := "rpcc: the connection is closing"

/-- A protocol call issued through the tab's client: it yields the
environment's result while the tab's connection is live, and the
connection-closing transport error once the connection is closed (or
absent). -/
def rpcCall (t : TabState) (envResult : Except Err α) : Except Err α :=
  match t.conn with
  | some c => if c.isOpen then envResult else .error connClosingErr
  | none => .error connClosingErr

/-- The environment of tab operations: the dial outcome for the lazy
connect plus the outcome of each protocol call the operations issue
(when reached over a live connection). -/
structure TabEnv where
  dial : Except Err Conn
  domContentSubscribe : Except Err Unit
  pageEnable : Except Err Unit
  navigate : Except Err String
  domContentRecv : Except Err Unit
  getDocument : Except Err Int
  querySelectorBody : Except Err Int
  getBoxModelHeight : Except Err Int
  getOuterHTML : Except Err String
  setDeviceMetricsOverride : ScreenshotOpts → Except Err Unit
  captureScreenshot : Except Err String
  evaluate : Except Err String

/-- Result of one public tab operation: state afterwards, the Go return
value, and the labels of hooks run by the operation's implicit connect. -/
structure OpOutcome (α : Type) where
  state : TabState
  result : Except Err α
  hooksRun : List String

/-- The body of `tab.Navigate` after the connect-if-needed step:
subscribe to DOMContentEventFired, enable the Page domain, issue the
navigation, wait for the event; the first failure is returned. -/
def navigateBody (env : TabEnv) (t : TabState) (ran : List String) : OpOutcome Bool :=
  match rpcCall t env.domContentSubscribe with
  | .error e => ⟨t, .error e, ran⟩
  | .ok _ =>
    match rpcCall t env.pageEnable with
    | .error e => ⟨t, .error e, ran⟩
    | .ok _ =>
      match rpcCall t env.navigate with
      | .error e => ⟨t, .error e, ran⟩
      | .ok _ =>
        match rpcCall t env.domContentRecv with
        | .error e => ⟨t, .error e, ran⟩
        | .ok _ => ⟨t, .ok true, ran⟩

/-- Embeds `tab.Navigate` (part_002 lines 79–125): connect when (and
only when) `t.conn` is nil, then run the navigation body. -/
def Navigate (env : TabEnv) (t : TabState) : OpOutcome Bool :=
  match t.conn with
  | none =>
    let co := tabConnect env.dial t
    match co.result with
    | some e => ⟨co.state, .error e, co.hooksRun⟩
    | none => navigateBody env co.state co.hooksRun
  | some _ => navigateBody env t []

/-- The body of `tab.GetHTML`: fetch the document root, then its outer
HTML. -/
def getHTMLBody (env : TabEnv) (t : TabState) (ran : List String) : OpOutcome String :=
  match rpcCall t env.getDocument with
  | .error e => ⟨t, .error e, ran⟩
  | .ok _ =>
    match rpcCall t env.getOuterHTML with
    | .error e => ⟨t, .error e, ran⟩
    | .ok html => ⟨t, .ok html, ran⟩

/-- Embeds `tab.GetHTML` (part_002 lines 127–156): connect when (and
only when) `t.conn` is nil, then fetch the document's outer HTML. -/
def GetHTML (env : TabEnv) (t : TabState) : OpOutcome String :=
  match t.conn with
  | none =>
    let co := tabConnect env.dial t
    match co.result with
    | some e => ⟨co.state, .error e, co.hooksRun⟩
    | none => getHTMLBody env co.state co.hooksRun
  | some _ => getHTMLBody env t []

/-- Embeds `fillScreenshotDefaults`, the zero-value defaulting block of
`tab.CaptureScreenshot` (part_002 lines 191–201): width 0 → 800,
height 0 → the measured body box-model height, device scale factor
0 → 1.0; non-zero fields are untouched, as is `Mobile`. -/
def fillScreenshotDefaults (opts : ScreenshotOpts) (bodyHeight : Int) : ScreenshotOpts :=
  let o1 := if opts.Width = 0 then { opts with Width := 800 } else opts
  let o2 := if o1.Height = 0 then { o1 with Height := bodyHeight } else o1
  if o2.DeviceScaleFactor = 0 then { o2 with DeviceScaleFactor := 1 } else o2

/-- Result of `tab.CaptureScreenshot`, instrumented with the arguments
the device-metrics override was issued with (if reached) and whether the
screenshot request itself was issued. -/
structure CaptureOutcome where
  state : TabState
  result : Except Err String
  hooksRun : List String
  overrideArgs : Option ScreenshotOpts
  screenshotIssued : Bool

/-- The body of `tab.CaptureScreenshot` after connect-if-needed: fetch
the document root, locate `body`, read its box model, fill option
defaults, issue the metrics override — whose error is assigned to `err`
but never checked before `err` is overwritten by the screenshot call —
then request the capture and wrap the data as a base64 PNG data URL. -/
def captureBody (env : TabEnv) (t : TabState) (opts : ScreenshotOpts)
    (ran : List String) : CaptureOutcome :=
  match rpcCall t env.getDocument with
  | .error e => ⟨t, .error e, ran, none, false⟩
  | .ok _ =>
    match rpcCall t env.querySelectorBody with
    | .error e => ⟨t, .error e, ran, none, false⟩
    | .ok _ =>
      match rpcCall t env.getBoxModelHeight with
      | .error e => ⟨t, .error e, ran, none, false⟩
      | .ok h =>
        let eff := fillScreenshotDefaults opts h
        let _overrideResult := rpcCall t (env.setDeviceMetricsOverride eff)
        match rpcCall t env.captureScreenshot with
        | .error e => ⟨t, .error e, ran, some eff, true⟩
        | .ok data => ⟨t, .ok ("data:image/png;base64," ++ data), ran, some eff, true⟩

/-- Embeds `tab.CaptureScreenshot` (part_002 lines 158–216): connect
when `t.conn` is nil, then run the capture body. -/
def CaptureScreenshot (env : TabEnv) (t : TabState) (opts : ScreenshotOpts) : CaptureOutcome :=
  match t.conn with
  | none =>
    let co := tabConnect env.dial t
    match co.result with
    | some e => ⟨co.state, .error e, co.hooksRun, none, false⟩
    | none => captureBody env co.state opts co.hooksRun
  | some _ => captureBody env t opts []

/-- Embeds `tab.Exec` (part_002 lines 218–231): connect when `t.conn`
is nil, then evaluate the script. -/
def Exec (env : TabEnv) (t : TabState) : OpOutcome String :=
  match t.conn with
  | none =>
    let co := tabConnect env.dial t
    match co.result with
    | some e => ⟨co.state, .error e, co.hooksRun⟩
    | none => ⟨co.state, rpcCall co.state env.evaluate, co.hooksRun⟩
  | some _ => ⟨t, rpcCall t env.evaluate, []⟩

/-- The timeout (in milliseconds) `tab.GetClient` hard-codes for its
implicit connect: `t.connect(120 * time.Second)`. -/
def getClientConnectTimeoutMs : Nat := 120 * 1000

/-- Result of `tab.GetClient`: state afterwards, the returned client
(nil on connect failure), and — when an implicit connect was attempted —
the timeout (ms) it was invoked with. -/
structure GetClientOutcome where
  state : TabState
  client : Option Conn
  connectTimeoutMs : Option Nat
deriving Repr, DecidableEq

/-- Embeds `tab.GetClient` (part_002 lines 233–243): when `t.client` is
nil it attempts `t.connect(120 * time.Second)`; a connect failure is
logged and nil is returned (no error value is surfaced); otherwise the
(possibly freshly built) client is returned. -/
def GetClient (env : TabEnv) (t : TabState) : GetClientOutcome :=
  match t.client with
  | none =>
    let co := tabConnect env.dial t
    match co.result with
    | some _ => ⟨co.state, none, some getClientConnectTimeoutMs⟩
    | none => ⟨co.state, co.state.client, some getClientConnectTimeoutMs⟩
  | some c => ⟨t, some c, none⟩

/-- Embeds `tab.GetTargetID` (part_002 lines 245–247). -/
def GetTargetID (t : TabState) : String := t.id

/-- Embeds `tab.AttachHook` (part_002 lines 249–251): append-only. -/
def AttachHook (t : TabState) (hook : Hook) : TabState :=
  { t with hooks := t.hooks ++ [hook] }

/-- The tab operations quantified over by the identity-invariance claim. -/
inductive TabOp where
  | connectOp
  | disconnectOp
  | navigateOp
  | getHTMLOp
  | captureScreenshotOp (opts : ScreenshotOpts)
  | execOp
  | attachHookOp (h : Hook)
  | getClientOp

/-- The state transformation of one tab operation. -/
def applyOp (env : TabEnv) (t : TabState) : TabOp → TabState
  | .connectOp => (tabConnect env.dial t).state
  | .disconnectOp => tabDisconnect t
  | .navigateOp => (Navigate env t).state
  | .getHTMLOp => (GetHTML env t).state
  | .captureScreenshotOp opts => (CaptureScreenshot env t opts).state
  | .execOp => (Exec env t).state
  | .attachHookOp h => AttachHook t h
  | .getClientOp => (GetClient env t).state

/-- The state after a sequence of tab operations. -/
def applyOps (env : TabEnv) (t : TabState) : List TabOp → TabState
  | [] => t
  | op :: rest => applyOps env (applyOp env t op) rest

/-! ## Shared lemmas -/

/-- If attempts `i, …, i+k-1` all fail and attempt `i+k` succeeds within
the budget, the retry loop succeeds and executes exactly `k+1` attempts. -/
theorem retryRun_firstSuccess (f : Nat → Option Err) :
    ∀ (k i n : Nat), k + 1 ≤ n → (∀ j, j < k → f (i + j) ≠ none) → f (i + k) = none →
      retryRun f n i = none ∧ attemptsUsed f n i = k + 1 := by
  intro k
  induction k with
  | zero =>
    intro i n hn _ hk
    simp only [Nat.add_zero] at hk
    obtain ⟨m, rfl⟩ : ∃ m, n = m + 1 := ⟨n - 1, by omega⟩
    cases m with
    | zero => simp [retryRun, attemptsUsed, hk]
    | succ m' => simp [retryRun, attemptsUsed, hk]
  | succ k ih =>
    intro i n hn hfail hk
    have h0 : f i ≠ none := by
      have := hfail 0 (Nat.succ_pos k)
      simpa using this
    obtain ⟨e, he⟩ := Option.ne_none_iff_exists'.mp h0
    obtain ⟨m, rfl⟩ : ∃ m, n = m + 2 := ⟨n - 2, by omega⟩
    have hrec := ih (i + 1) (m + 1) (by omega)
      (fun j hj => by
        have h := hfail (j + 1) (by omega)
        have heq : i + (j + 1) = i + 1 + j := by omega
        rwa [heq] at h)
      (by
        have heq : i + 1 + k = i + (k + 1) := by omega
        rw [heq]; exact hk)
    refine ⟨?_, ?_⟩
    · simp [retryRun, he, hrec.1]
    · simp [attemptsUsed, he, hrec.2]
      omega

/-- If every attempt in the budget fails, the retry loop returns the
outcome of the final attempt. -/
theorem retryRun_exhaust (f : Nat → Option Err) :
    ∀ (n i : Nat), 1 ≤ n → (∀ j, j < n → f (i + j) ≠ none) →
      retryRun f n i = f (i + (n - 1)) := by
  intro n
  induction n with
  | zero => intro i h; omega
  | succ m ih =>
    intro i _ hfail
    cases m with
    | zero => simp [retryRun]
    | succ m' =>
      have h0 : f i ≠ none := by
        have := hfail 0 (by omega)
        simpa using this
      obtain ⟨e, he⟩ := Option.ne_none_iff_exists'.mp h0
      have hstep : retryRun f (m' + 2) i = retryRun f (m' + 1) (i + 1) := by
        simp [retryRun, he]
      rw [hstep, ih (i + 1) (by omega)
        (fun j hj => by
          have h := hfail (j + 1) (by omega)
          have heq : i + (j + 1) = i + 1 + j := by omega
          rwa [heq] at h)]
      congr 1
      omega

/-- A claim's handshake run where the first two attempts fail and the
third succeeds. -/
def handshakeOkAfter2 : Nat → HandshakeEnv := fun i =>
  if i < 2 then
    ⟨.error ("attempt " ++ toString i ++ " refused"), .ok ⟨true⟩, .ok []⟩
  else
    ⟨.ok "ws://localhost:9222/devtools/browser/abc", .ok ⟨true⟩,
      .ok [⟨"page", "T1"⟩]⟩

/-- A handshake run where every attempt fails at the version lookup. -/
def handshakeAllFail : Nat → HandshakeEnv := fun i =>
  ⟨.error ("attempt " ++ toString i ++ " refused"), .ok ⟨true⟩, .ok []⟩

/-- Claim C1: the handshake (version lookup → dial → target-list query)
is retried as one unit by `chrome.connect`: a run whose first success is
attempt `k+1 ≤ 5` makes the loop succeed after exactly `k+1` attempts,
a run whose five attempts all fail surfaces the final (5th) attempt's
error, and the inter-attempt backoff starts at 100 ms and is capped at
1 s. -/
theorem connect_retriesHandshakeAsOneUnit (envs : Nat → HandshakeEnv) :
    (∀ k, k < 5 → (∀ j, j < k → handshakeAttempt (envs j) ≠ none) →
        handshakeAttempt (envs k) = none →
        chromeConnectResult envs = none ∧ chromeConnectAttempts envs = k + 1)
    ∧ ((∀ j, j < 5 → handshakeAttempt (envs j) ≠ none) →
        chromeConnectResult envs = handshakeAttempt (envs 4))
    ∧ backoffDelay 0 = 100 ∧ (∀ i, backoffDelay i ≤ 1000) := by
  refine ⟨?_, ?_, by decide, fun i => Nat.min_le_right _ _⟩
  · intro k hk hfail hsucc
    exact retryRun_firstSuccess (fun i => handshakeAttempt (envs i)) k 0 5 (by omega)
      (fun j hj => by simpa using hfail j hj) (by simpa using hsucc)
  · intro hfail
    have h := retryRun_exhaust (fun i => handshakeAttempt (envs i)) 5 0 (by omega)
      (fun j hj => by simpa using hfail j hj)
    simpa [chromeConnectResult] using h

/-- Witness for C1 at two concrete runs: success on the third attempt
(3 attempts used), and exhaustion surfacing the 5th attempt's error. -/
theorem connect_retriesHandshakeAsOneUnit_witness :
    (chromeConnectResult handshakeOkAfter2 = none
      ∧ chromeConnectAttempts handshakeOkAfter2 = 3)
    ∧ chromeConnectResult handshakeAllFail = handshakeAttempt (handshakeAllFail 4) := by
  constructor
  · exact (connect_retriesHandshakeAsOneUnit handshakeOkAfter2).1 2 (by decide)
      (by decide) (by decide)
  · exact (connect_retriesHandshakeAsOneUnit handshakeAllFail).2.1 (by decide)

/-- Claim C2: the port used in the `--remote-debugging-port` flag of the
argument list and the port of the handshake HTTP endpoint agree for
every `LaunchOpts`, both being the resolved port — 9222 when unset, and
the caller's P when set. -/
theorem launch_portConsistency (opts : LaunchOpts) (c : ChromeState) :
    debugPortFlag (resolvePort opts.port) ∈ launchArgs opts
    ∧ connectVersionURL (launchPortResolved c opts) = versionURL (resolvePort opts.port)
    ∧ (opts.port = none → resolvePort opts.port = 9222)
    ∧ (∀ p, opts.port = some p → resolvePort opts.port = p) := by
  refine ⟨?_, rfl, ?_, ?_⟩
  · unfold launchArgs defaultArguments
    by_cases h : opts.headless <;> simp [h]
  · intro h; rw [h]; rfl
  · intro p h; rw [h]; rfl

/-- Witness for C2: with no port both places use 9222; with port 9300
both use 9300. -/
theorem launch_portConsistency_witness :
    debugPortFlag (resolvePort (NewLaunchOpts.SetPort 9300).port)
        ∈ launchArgs (NewLaunchOpts.SetPort 9300)
    ∧ resolvePort (NewLaunchOpts.SetPort 9300).port = 9300
    ∧ resolvePort NewLaunchOpts.port = 9222
    ∧ connectVersionURL (launchPortResolved NewChrome NewLaunchOpts)
        = "http://localhost:9222" := by
  refine ⟨(launch_portConsistency (NewLaunchOpts.SetPort 9300) NewChrome).1,
    (launch_portConsistency (NewLaunchOpts.SetPort 9300) NewChrome).2.2.2 9300 rfl,
    (launch_portConsistency NewLaunchOpts NewChrome).2.2.1 rfl,
    ((launch_portConsistency NewLaunchOpts NewChrome).2.1).trans rfl⟩

/-- The debug-port flag can never collide with the headless flag,
whatever the port renders to. -/
theorem debugPortFlag_ne_headlessFlag (p : Int) : debugPortFlag p ≠ "--headless" := by
  intro h
  have hlen : ("--remote-debugging-port=" ++ toString p).length
      = ("--headless" : String).length := congrArg String.length h
  rw [String.length_append] at hlen
  have h1 : ("--remote-debugging-port=" : String).length = 24 := rfl
  have h2 : ("--headless" : String).length = 10 := rfl
  omega

/-- Claim C8: `--headless` is appended after the fixed default flags and
the caller-supplied extra arguments exactly when the headless option is
true (and never occurs among the default flags), and `NewLaunchOpts`
defaults `headless` to true. -/
theorem launch_headlessFlag (opts : LaunchOpts) :
    launchArgs opts
      = (defaultArguments (resolvePort opts.port) ++ opts.arguments)
        ++ (if opts.headless then ["--headless"] else [])
    ∧ NewLaunchOpts.headless = true
    ∧ "--headless" ∉ defaultArguments (resolvePort opts.port) := by
  refine ⟨?_, rfl, ?_⟩
  · by_cases h : opts.headless <;> simp [launchArgs, h]
  · intro hmem
    simp only [defaultArguments, List.mem_cons, List.not_mem_nil, or_false] at hmem
    rcases hmem with h | h | h | h | h | h | h | h | h | h | h | h | h | h | h | h | h
      | h | h | h | h | h | h | h | h | h | h | h | h | h | h
    all_goals first
      | exact absurd h (by decide)
      | exact debugPortFlag_ne_headlessFlag _ h.symm

/-- Claim C5 (code bug): `Terminate` on a facade whose `Launch` was never
called dereferences the nil `command` pointer and panics; only the
sub-case where a command exists but its process never started returns
nil. -/
theorem terminate_neverLaunched_panics :
    Terminate NewChrome = GoOutcome.nilPointerPanic
    ∧ Terminate { command := some { process := none }, port := none }
        = GoOutcome.ok none :=
  ⟨rfl, rfl⟩

/-- When every registered hook succeeds, all hooks run in registration
order and the loop reports no error. -/
theorem runHooks_allOk (hs : List Hook) (h : ∀ x ∈ hs, x.2 = none) :
    runHooks hs = (hs.map Prod.fst, none) := by
  induction hs with
  | nil => rfl
  | cons hd tl ih =>
    obtain ⟨name, res⟩ := hd
    have hres : res = none := h _ (List.mem_cons_self _ _)
    subst hres
    simp [runHooks, ih (fun x hx => h x (List.mem_cons_of_mem _ hx))]

/-- When the hooks before the first failing hook all succeed, exactly the
prefix up to and including the failing hook runs, and its error is
reported. -/
theorem runHooks_firstFail (pre : List Hook) (name : String) (e : Err) (post : List Hook)
    (h : ∀ x ∈ pre, x.2 = none) :
    runHooks (pre ++ (name, some e) :: post) = (pre.map Prod.fst ++ [name], some e) := by
  induction pre with
  | nil => simp [runHooks]
  | cons hd tl ih =>
    obtain ⟨n, res⟩ := hd
    have hres : res = none := h _ (List.mem_cons_self _ _)
    subst hres
    simp [runHooks, ih (fun x hx => h x (List.mem_cons_of_mem _ hx))]

/-- `tab.connect` never touches the target id. -/
theorem tabConnect_state_id (dial : Except Err Conn) (t : TabState) :
    (tabConnect dial t).state.id = t.id := by
  cases dial <;> rfl

/-- The navigation body leaves the tab state unchanged. -/
theorem navigateBody_state (env : TabEnv) (t : TabState) (ran : List String) :
    (navigateBody env t ran).state = t := by
  unfold navigateBody
  repeat' split
  all_goals rfl

/-- The navigation body reports exactly the hooks handed to it. -/
theorem navigateBody_hooksRun (env : TabEnv) (t : TabState) (ran : List String) :
    (navigateBody env t ran).hooksRun = ran := by
  unfold navigateBody
  repeat' split
  all_goals rfl

/-- The GetHTML body leaves the tab state unchanged. -/
theorem getHTMLBody_state (env : TabEnv) (t : TabState) (ran : List String) :
    (getHTMLBody env t ran).state = t := by
  unfold getHTMLBody
  repeat' split
  all_goals rfl

/-- The GetHTML body reports exactly the hooks handed to it. -/
theorem getHTMLBody_hooksRun (env : TabEnv) (t : TabState) (ran : List String) :
    (getHTMLBody env t ran).hooksRun = ran := by
  unfold getHTMLBody
  repeat' split
  all_goals rfl

/-- The capture body leaves the tab state unchanged. -/
theorem captureBody_state (env : TabEnv) (t : TabState) (opts : ScreenshotOpts)
    (ran : List String) :
    (captureBody env t opts ran).state = t := by
  unfold captureBody
  repeat' split
  all_goals rfl

/-- A tab whose `connect` never ran or whose dial succeeded with hooks
used by several claims below. -/
def freshTab : TabState :=
  { id := "T1", port := some 9222, conn := none, client := none,
    hooks := [("enableNetwork", none)] }

/-- A tab with an established, live connection and no hooks. -/
def connectedTab : TabState :=
  { id := "T1", port := some 9222, conn := some ⟨true⟩, client := some ⟨true⟩,
    hooks := [] }

/-- An environment in which the dial and every protocol call succeed. -/
def okTabEnv : TabEnv :=
  { dial := .ok ⟨true⟩
  , domContentSubscribe := .ok ()
  , pageEnable := .ok ()
  , navigate := .ok "frame-1"
  , domContentRecv := .ok ()
  , getDocument := .ok 1
  , querySelectorBody := .ok 2
  , getBoxModelHeight := .ok 600
  , getOuterHTML := .ok "<html></html>"
  , setDeviceMetricsOverride := fun _ => .ok ()
  , captureScreenshot := .ok "iVBORw0KGgo"
  , evaluate := .ok "42" }

/-- Claim C3 (amended): on a successful dial, hooks execute in
registration order; when all succeed, connect succeeds having run them
all; when some hook fails first, no later hook runs and connect returns
its error — but the dialed connection and the client remain stored on
the tab, so it is not left unconnected. -/
theorem tabConnect_hookOrdering (c : Conn) (t : TabState) :
    ((∀ x ∈ t.hooks, x.2 = none) →
      (tabConnect (.ok c) t).result = none
      ∧ (tabConnect (.ok c) t).hooksRun = t.hooks.map Prod.fst)
    ∧ (∀ pre name e post, t.hooks = pre ++ (name, some e) :: post →
        (∀ x ∈ pre, x.2 = none) →
        (tabConnect (.ok c) t).result = some e
        ∧ (tabConnect (.ok c) t).hooksRun = pre.map Prod.fst ++ [name]
        ∧ (tabConnect (.ok c) t).state.conn = some c
        ∧ (tabConnect (.ok c) t).state.client = some c) := by
  constructor
  · intro hall
    simp [tabConnect, runHooks_allOk t.hooks hall]
  · intro pre name e post hsplit hpre
    simp [tabConnect, hsplit, runHooks_firstFail pre name e post hpre]

/-- A tab whose first registered hook fails and whose second succeeds. -/
def hookFailTab : TabState :=
  { id := "T1", port := some 9222, conn := none, client := none,
    hooks := [("A", some "hook A failed"), ("B", none)] }

/-- A tab with two succeeding hooks A and B. -/
def hookOkTab : TabState :=
  { id := "T1", port := some 9222, conn := none, client := none,
    hooks := [("A", none), ("B", none)] }

/-- Counterexample to C3 as stated: with hooks [A (failing), B] and a
successful dial, connect runs only A and returns A's error, but the tab
is NOT left unconnected — the dialed connection and client are stored,
so the connect-if-nil checks of later operations will not reconnect. -/
theorem tabConnect_hookFail_notUnconnected :
    (tabConnect (.ok ⟨true⟩) hookFailTab).result = some "hook A failed"
    ∧ (tabConnect (.ok ⟨true⟩) hookFailTab).hooksRun = ["A"]
    ∧ (tabConnect (.ok ⟨true⟩) hookFailTab).state.conn = some ⟨true⟩
    ∧ (tabConnect (.ok ⟨true⟩) hookFailTab).state.client = some ⟨true⟩ :=
  ⟨rfl, rfl, rfl, rfl⟩

/-- Witness for the amended C3 at hooks [A, B]: both run in order on
success; with A failing, only A runs, A's error is returned, and the
connection is retained. -/
theorem tabConnect_hookOrdering_witness :
    ((tabConnect (.ok ⟨true⟩) hookOkTab).result = none
      ∧ (tabConnect (.ok ⟨true⟩) hookOkTab).hooksRun = ["A", "B"])
    ∧ ((tabConnect (.ok ⟨true⟩) hookFailTab).result = some "hook A failed"
      ∧ (tabConnect (.ok ⟨true⟩) hookFailTab).hooksRun = ["A"]
      ∧ (tabConnect (.ok ⟨true⟩) hookFailTab).state.conn = some ⟨true⟩
      ∧ (tabConnect (.ok ⟨true⟩) hookFailTab).state.client = some ⟨true⟩) := by
  constructor
  · have h := (tabConnect_hookOrdering ⟨true⟩ hookOkTab).1 (by decide)
    exact ⟨h.1, h.2.trans rfl⟩
  · exact (tabConnect_hookOrdering ⟨true⟩ hookFailTab).2 [] "A" "hook A failed"
      [("B", none)] rfl (by decide)

/-- A tab whose connection was established and then closed by
`tab.disconnect`: the conn field is still set, but the connection is no
longer open. -/
def closedConnTab : TabState :=
  { id := "T1", port := some 9222, conn := some ⟨false⟩, client := some ⟨false⟩,
    hooks := [("enableNetwork", none)] }

/-- Counterexample to C4 as stated: starting from a never-connected tab,
`Navigate` succeeds (establishing the connection and running the hook);
after `tab.disconnect` — which closes the connection but leaves the
field non-nil — `GetHTML` does not re-establish the connection, runs no
hooks, and fails with the connection-closing transport error instead of
succeeding. -/
theorem getHTML_afterDisconnect_fails :
    (Navigate okTabEnv freshTab).result = .ok true
    ∧ (GetHTML okTabEnv (tabDisconnect (Navigate okTabEnv freshTab).state)).result
        = .error connClosingErr
    ∧ (GetHTML okTabEnv (tabDisconnect (Navigate okTabEnv freshTab).state)).hooksRun
        = [] :=
  ⟨rfl, rfl, rfl⟩

/-- Claim C4 (amended): `GetHTML` transparently connects — re-running
every registered hook in order — exactly when the tab holds no
connection object (never connected, or the previous dial failed and
reset the field to nil), and then succeeds when the protocol calls do;
after an explicit disconnect the closed connection remains stored, so
`GetHTML` does not reconnect, runs no hooks, and fails with the
connection-closing error. -/
theorem getHTML_reconnect_onlyWhenConnNil (env : TabEnv) (t : TabState) :
    (∀ c d html, t.conn = none → env.dial = .ok c →
      (∀ x ∈ t.hooks, x.2 = none) → c.isOpen = true →
      env.getDocument = .ok d → env.getOuterHTML = .ok html →
      (GetHTML env t).hooksRun = t.hooks.map Prod.fst
      ∧ (GetHTML env t).result = .ok html)
    ∧ (∀ c, t.conn = some c →
        (GetHTML env t).hooksRun = []
        ∧ (c.isOpen = false → (GetHTML env t).result = .error connClosingErr)) := by
  constructor
  · intro c d html hconn hdial hhooks hopen hdoc houter
    have hrun := runHooks_allOk t.hooks hhooks
    simp [GetHTML, hconn, hdial, tabConnect, hrun, getHTMLBody, rpcCall, hopen,
      hdoc, houter]
  · intro c hconn
    refine ⟨?_, ?_⟩
    · simp [GetHTML, hconn, getHTMLBody_hooksRun]
    · intro hclosed
      simp [GetHTML, hconn, getHTMLBody, rpcCall, hclosed]

/-- Witness for the amended C4: a never-connected tab's `GetHTML`
connects, runs its hook, and returns the page HTML; a tab disconnected
after use runs no hooks and fails with the connection-closing error. -/
theorem getHTML_reconnect_onlyWhenConnNil_witness :
    ((GetHTML okTabEnv freshTab).hooksRun = ["enableNetwork"]
      ∧ (GetHTML okTabEnv freshTab).result = .ok "<html></html>")
    ∧ ((GetHTML okTabEnv closedConnTab).hooksRun = []
      ∧ (GetHTML okTabEnv closedConnTab).result = .error connClosingErr) := by
  constructor
  · have h := (getHTML_reconnect_onlyWhenConnNil okTabEnv freshTab).1 ⟨true⟩ 1
      "<html></html>" rfl rfl (by decide) rfl rfl rfl
    exact ⟨h.1.trans rfl, h.2⟩
  · have h := (getHTML_reconnect_onlyWhenConnNil okTabEnv closedConnTab).2 ⟨false⟩ rfl
    exact ⟨h.1, h.2 rfl⟩

/-- Claim C6: before the device-metrics override is issued, each
zero-valued numeric screenshot option is replaced by its default —
width 0 → 800, height 0 → the measured body box-model height, device
scale factor 0 → 1.0 — every non-zero field is passed through
unchanged, `Mobile` is never touched, and the override is issued with
exactly the filled options. -/
theorem captureScreenshot_defaultFilling (opts : ScreenshotOpts) (h : Int) :
    (CaptureScreenshot { okTabEnv with getBoxModelHeight := .ok h }
        connectedTab opts).overrideArgs = some (fillScreenshotDefaults opts h)
    ∧ (fillScreenshotDefaults opts h).Width
        = (if opts.Width = 0 then 800 else opts.Width)
    ∧ (fillScreenshotDefaults opts h).Height
        = (if opts.Height = 0 then h else opts.Height)
    ∧ (fillScreenshotDefaults opts h).DeviceScaleFactor
        = (if opts.DeviceScaleFactor = 0 then 1 else opts.DeviceScaleFactor)
    ∧ (fillScreenshotDefaults opts h).Mobile = opts.Mobile := by
  refine ⟨rfl, ?_, ?_, ?_, ?_⟩
  all_goals
    by_cases hw : opts.Width = 0 <;> by_cases hh : opts.Height = 0 <;>
      by_cases hd : opts.DeviceScaleFactor = 0 <;>
      simp [fillScreenshotDefaults, hw, hh, hd]

/-- Claim C7: a failing device-metrics override does not abort the
capture — the screenshot request is still issued, and when it succeeds
the operation returns the data-URL image with no error. -/
theorem captureScreenshot_overrideFailureNotFatal (e : Err) (data : String)
    (opts : ScreenshotOpts) (h : Int) :
    (CaptureScreenshot
        { okTabEnv with
            getBoxModelHeight := .ok h
          , setDeviceMetricsOverride := fun _ => .error e
          , captureScreenshot := .ok data }
        connectedTab opts).result = .ok ("data:image/png;base64," ++ data)
    ∧ (CaptureScreenshot
        { okTabEnv with
            getBoxModelHeight := .ok h
          , setDeviceMetricsOverride := fun _ => .error e
          , captureScreenshot := .ok data }
        connectedTab opts).screenshotIssued = true :=
  ⟨rfl, rfl⟩

/-- `tab.Navigate` never touches the target id. -/
theorem Navigate_state_id (env : TabEnv) (t : TabState) :
    (Navigate env t).state.id = t.id := by
  unfold Navigate
  split
  · dsimp only
    split
    · simp [tabConnect_state_id]
    · rw [navigateBody_state]
      exact tabConnect_state_id _ _
  · simp [navigateBody_state]

/-- `tab.GetHTML` never touches the target id. -/
theorem GetHTML_state_id (env : TabEnv) (t : TabState) :
    (GetHTML env t).state.id = t.id := by
  unfold GetHTML
  split
  · dsimp only
    split
    · simp [tabConnect_state_id]
    · rw [getHTMLBody_state]
      exact tabConnect_state_id _ _
  · simp [getHTMLBody_state]

/-- `tab.CaptureScreenshot` never touches the target id. -/
theorem CaptureScreenshot_state_id (env : TabEnv) (t : TabState) (opts : ScreenshotOpts) :
    (CaptureScreenshot env t opts).state.id = t.id := by
  unfold CaptureScreenshot
  split
  · dsimp only
    split
    · simp [tabConnect_state_id]
    · rw [captureBody_state]
      exact tabConnect_state_id _ _
  · simp [captureBody_state]

/-- `tab.Exec` never touches the target id. -/
theorem Exec_state_id (env : TabEnv) (t : TabState) :
    (Exec env t).state.id = t.id := by
  unfold Exec
  split
  · dsimp only
    split
    · simp [tabConnect_state_id]
    · simp [tabConnect_state_id]
  · simp

/-- `tab.GetClient` never touches the target id. -/
theorem GetClient_state_id (env : TabEnv) (t : TabState) :
    (GetClient env t).state.id = t.id := by
  unfold GetClient
  split
  · dsimp only
    split
    · simp [tabConnect_state_id]
    · simp [tabConnect_state_id]
  · simp

/-- No tab operation changes the target id. -/
theorem applyOp_preserves_id (env : TabEnv) (t : TabState) (op : TabOp) :
    (applyOp env t op).id = t.id := by
  cases op with
  | connectOp => exact tabConnect_state_id _ _
  | disconnectOp => rfl
  | navigateOp => exact Navigate_state_id _ _
  | getHTMLOp => exact GetHTML_state_id _ _
  | captureScreenshotOp opts => exact CaptureScreenshot_state_id _ _ _
  | execOp => exact Exec_state_id _ _
  | attachHookOp h => rfl
  | getClientOp => exact GetClient_state_id _ _

/-- Claim C9: the target identifier is assigned once at tab creation and
no sequence of operations (connect, disconnect, Navigate, GetHTML,
CaptureScreenshot, Exec, AttachHook, GetClient — including repeated
disconnects and reconnects) changes what `GetTargetID` returns. -/
theorem getTargetID_immutable (env : TabEnv) (ops : List TabOp) (t : TabState) :
    GetTargetID (applyOps env t ops) = GetTargetID t := by
  induction ops generalizing t with
  | nil => rfl
  | cons op rest ih =>
    show GetTargetID (applyOps env (applyOp env t op) rest) = GetTargetID t
    rw [ih (applyOp env t op)]
    show (applyOp env t op).id = t.id
    exact applyOp_preserves_id env t op

/-- Claim C10: when the tab's client is not yet established, `GetClient`
attempts a connect with the fixed 120-second timeout and returns nil —
not an error — when that connect fails (and the fresh client when it
succeeds); on an already-connected tab it returns the existing client
with the state unchanged. -/
theorem getClient_lazyConnect (env : TabEnv) (t : TabState) :
    getClientConnectTimeoutMs = 120 * 1000
    ∧ (t.client = none →
        (GetClient env t).connectTimeoutMs = some getClientConnectTimeoutMs
        ∧ (∀ e, (tabConnect env.dial t).result = some e →
            (GetClient env t).client = none)
        ∧ ((tabConnect env.dial t).result = none →
            (GetClient env t).client = (tabConnect env.dial t).state.client))
    ∧ (∀ c, t.client = some c →
        GetClient env t = ⟨t, some c, none⟩) := by
  refine ⟨rfl, ?_, ?_⟩
  · intro hnone
    refine ⟨?_, ?_, ?_⟩
    · simp only [GetClient, hnone]
      split <;> rfl
    · intro e he
      simp [GetClient, hnone, he]
    · intro hok
      simp [GetClient, hnone, hok]
  · intro c hc
    simp [GetClient, hc]

/-- An environment whose dial fails. -/
def dialFailEnv : TabEnv :=
  { okTabEnv with dial := .error "connection refused" }

/-- Witness for C10: a never-connected tab under a failing dial gets a
nil client from a connect attempted with the 120-second (120000 ms)
timeout; a connected tab gets its existing client back unchanged. -/
theorem getClient_lazyConnect_witness :
    (GetClient dialFailEnv freshTab).connectTimeoutMs = some 120000
    ∧ (GetClient dialFailEnv freshTab).client = none
    ∧ GetClient okTabEnv connectedTab = ⟨connectedTab, some ⟨true⟩, none⟩ := by
  have h := (getClient_lazyConnect dialFailEnv freshTab).2.1 rfl
  have h2 := (getClient_lazyConnect okTabEnv connectedTab).2.2 ⟨true⟩ rfl
  exact ⟨h.1.trans rfl, h.2.1 "connection refused" rfl, h2⟩

/-- Witness for C8 at untouched options: a launch from `NewLaunchOpts`
puts `--headless` last, after the default flags and the (empty) extras. -/
theorem launch_headlessFlag_witness :
    launchArgs NewLaunchOpts
      = (defaultArguments (resolvePort NewLaunchOpts.port)
          ++ NewLaunchOpts.arguments) ++ ["--headless"]
    ∧ NewLaunchOpts.headless = true
    ∧ "--headless" ∉ defaultArguments 9222 := by
  have h := launch_headlessFlag NewLaunchOpts
  exact ⟨h.1.trans rfl, h.2.1, h.2.2⟩

end GoChrome
